import Mathlib

/-!
Shallow embedding of `src/M5StickCPlus2.ino` (an Arduino telemetry sketch:
sample environmental sensors, batch into Prometheus time series, push to a
remote endpoint, reset buffers, keep a failure counter, render status).

Sensor readings and sample values are modelled as `Rat` (the C++ `float`
comparisons in the sketch are exact at all inputs of interest), timestamps as
`Int` (int64_t), and the external world (sensor reads, send result, wifi
status) as an explicit per-cycle input record.
-/

namespace M5Stick

/-- One timestamped sample as stored by `TimeSeries::addSample`. -/
structure Sample where
  timestamp : Int
  value : Rat
deriving Repr, DecidableEq

/-- A Prometheus time series: a metric name plus its pending samples
(lines 46-51 of the sketch create six of these). -/
structure TimeSeries where
  name : String
  samples : List Sample
deriving Repr, DecidableEq

/-- `ts.addSample(time, value)`: append one sample. -/
def TimeSeries.addSample (ts : TimeSeries) (t : Int) (v : Rat) : TimeSeries :=
  { ts with samples := ts.samples ++ [⟨t, v⟩] }

/-- `ts.resetSamples()`: drop all pending samples, keep the series identity. -/
def TimeSeries.resetSamples (ts : TimeSeries) : TimeSeries :=
  { ts with samples := [] }

/-- The sketch's mutable global state (lines 32-36 and the six TimeSeries
globals of lines 46-51). -/
structure DeviceState where
  temp : Rat
  hum : Rat
  pressure : Rat
  upload_fail_count : Int
  ts_m5stick_temperature : TimeSeries
  ts_m5stick_humidity : TimeSeries
  ts_m5stick_pressure : TimeSeries
  ts_m5stick_bat_volt : TimeSeries
  ts_m5stick_bat_current : TimeSeries
  ts_m5stick_bat_level : TimeSeries
deriving Repr, DecidableEq

/-- The contents of the `WriteRequest req`, in registration order: `setup`
adds the six series with `req.addTimeSeries` at lines 109-114 in exactly
this order. -/
def DeviceState.req (s : DeviceState) : List TimeSeries :=
  [s.ts_m5stick_temperature, s.ts_m5stick_humidity, s.ts_m5stick_pressure,
   s.ts_m5stick_bat_volt, s.ts_m5stick_bat_current, s.ts_m5stick_bat_level]

/-- Global initializers: floats start at 0.0, the counter at 0 and each
series empty with its metric name (lines 32-36, 46-51). -/
def initialState : DeviceState :=
  { temp := 0
    hum := 0
    pressure := 0
    upload_fail_count := 0
    ts_m5stick_temperature := ⟨"m5stick_temp", []⟩
    ts_m5stick_humidity := ⟨"m5stick_hum", []⟩
    ts_m5stick_pressure := ⟨"m5stick_pressure", []⟩
    ts_m5stick_bat_volt := ⟨"m5stick_bat_volt", []⟩
    ts_m5stick_bat_current := ⟨"m5stick_bat_current", []⟩
    ts_m5stick_bat_level := ⟨"m5stick_bat_level", []⟩ }

/-- Everything the environment supplies during one `loop()` iteration:
the transport clock, the two sensor reads (each may fail), the three
battery readings, the result code of `client.send(req)` and the wifi
status consulted by the debug display. -/
structure CycleInput where
  timeMillis : Int
  qmpOk : Bool
  qmpPressure : Rat
  shtOk : Bool
  shtTemp : Rat
  shtHum : Rat
  batVolt : Int
  batCurrent : Int
  batLevel : Int
  sendResult : Int
  wifiConnected : Bool
deriving Repr, DecidableEq

/-- Observable events of one `loop()` iteration: whether `ESP.restart()`
fired (aborting the cycle), whether `client.send(req)` was reached and,
if so, the contents of `req` at that moment, and whether the debug status
block (lines 175-205) executed. -/
structure CycleTrace where
  restarted : Bool
  sendAttempted : Bool
  sentBatch : Option (List TimeSeries)
  statusRendered : Bool
deriving Repr, DecidableEq

/-- The anomaly check of lines 132-133: two consecutive guard statements
`if (pressure < 950) { ESP.restart(); }` and
`if (pressure/100 > 1200) { ESP.restart(); }`, i.e. restart exactly when
either condition holds.  Note the lower bound compares the RAW value,
the upper bound the value divided by 100. -/
def checkPressureRestart (pressure : Rat) : Bool :=
  decide (pressure < 950) || decide (pressure / 100 > 1200)

/-- Modelled from the spec: `AnomalyGuard.checkPressure` as the spec words
it ("restart required when hPa/100 < 950 OR hPa/100 > 1200"), for
comparison with `checkPressureRestart`, which is taken from the source. -/
def specCheckPressureRestart (p : Rat) : Bool :=
  decide (p / 100 < 950) || decide (p / 100 > 1200)

/-- Lines 122-131: `pressure` is overwritten only when `qmp6988.update()`
succeeds; `temp`/`hum` are taken from a successful `sht30.update()` and
zero-filled otherwise. -/
def readSensors (s : DeviceState) (i : CycleInput) : DeviceState :=
  { s with
    pressure := if i.qmpOk then i.qmpPressure else s.pressure
    temp := if i.shtOk then i.shtTemp else 0
    hum := if i.shtOk then i.shtHum else 0 }

/-- Lines 147-153: one `addSample` per series, all using the single
timestamp captured at the top of `loop()`. -/
def appendAll (s : DeviceState) (t : Int) (i : CycleInput) : DeviceState :=
  { s with
    ts_m5stick_temperature := s.ts_m5stick_temperature.addSample t s.temp
    ts_m5stick_humidity := s.ts_m5stick_humidity.addSample t s.hum
    ts_m5stick_pressure := s.ts_m5stick_pressure.addSample t s.pressure
    ts_m5stick_bat_volt := s.ts_m5stick_bat_volt.addSample t (i.batVolt : Rat)
    ts_m5stick_bat_current := s.ts_m5stick_bat_current.addSample t (i.batCurrent : Rat)
    ts_m5stick_bat_level := s.ts_m5stick_bat_level.addSample t (i.batLevel : Rat) }

/-- Lines 157-162: `resetSamples()` on all six series, unconditionally. -/
def resetAll (s : DeviceState) : DeviceState :=
  { s with
    ts_m5stick_temperature := s.ts_m5stick_temperature.resetSamples
    ts_m5stick_humidity := s.ts_m5stick_humidity.resetSamples
    ts_m5stick_pressure := s.ts_m5stick_pressure.resetSamples
    ts_m5stick_bat_volt := s.ts_m5stick_bat_volt.resetSamples
    ts_m5stick_bat_current := s.ts_m5stick_bat_current.resetSamples
    ts_m5stick_bat_level := s.ts_m5stick_bat_level.resetSamples }

/-- Lines 192-199: the failure-count bookkeeping.  In the source these
statements sit INSIDE the `if (LCD_SHOW_DEBUG_INFO == "1")` block, so the
counter moves only when the debug display is enabled. -/
def updateFailCount (showDebugInfo : Bool) (res : Int) (s : DeviceState) : DeviceState :=
  if showDebugInfo then
    if res = 0 then { s with upload_fail_count := 0 }
    else { s with upload_fail_count := s.upload_fail_count + 1 }
  else s

/-- One iteration of `loop()` (lines 117-208).  `showDebugInfo` models the
config.h constant `LCD_SHOW_DEBUG_INFO == "1"`.  An `ESP.restart()` aborts
the iteration: nothing after the firing guard executes. -/
def loopStep (showDebugInfo : Bool) (s : DeviceState) (i : CycleInput) :
    DeviceState × CycleTrace :=
  let time := i.timeMillis
  let s1 := readSensors s i
  if s1.pressure < 950 then
    (s1, ⟨true, false, none, false⟩)
  else if s1.pressure / 100 > 1200 then
    (s1, ⟨true, false, none, false⟩)
  else
    let s2 := appendAll s1 time i
    let sent := s2.req
    let s3 := resetAll s2
    let s4 := updateFailCount showDebugInfo i.sendResult s3
    (s4, ⟨false, true, some sent, showDebugInfo⟩)

/-- Run `loop()` over a list of per-cycle inputs, collecting the traces. -/
def runCycles (showDebugInfo : Bool) (s : DeviceState) :
    List CycleInput → DeviceState × List CycleTrace
  | [] => (s, [])
  | i :: rest =>
    ((runCycles showDebugInfo (loopStep showDebugInfo s i).1 rest).1,
     (loopStep showDebugInfo s i).2 ::
       (runCycles showDebugInfo (loopStep showDebugInfo s i).1 rest).2)

/-- What `setup()` needs from the environment: whether
`transport.begin()` (line 86) and `client.begin()` (line 103) succeed.
(The sensor `begin` calls at lines 68-73 only print on failure.) -/
structure SetupInput where
  qmpBeginOk : Bool
  shtBeginOk : Bool
  transportBeginOk : Bool
  clientBeginOk : Bool
deriving Repr, DecidableEq

/-- Process state: `halted` models the `while (true) {};` idle loops at
lines 88 and 105; `running` means `setup()` completed and the Arduino
runtime repeatedly invokes `loop()`. -/
inductive ProcState where
  | halted
  | running (s : DeviceState)
deriving Repr, DecidableEq

/-- `setup()` (lines 53-115): a failed `transport.begin()` or
`client.begin()` drops into `while (true) {};`; otherwise the six series
are registered and the loop starts from the global initializers. -/
def startProc (si : SetupInput) : ProcState :=
  if !si.transportBeginOk then ProcState.halted
  else if !si.clientBeginOk then ProcState.halted
  else ProcState.running initialState

/-- Whole-process run: a halted process executes no cycle at all (the
idle loop never returns); a running one executes `loop()` per input. -/
def procRun (showDebugInfo : Bool) : ProcState → List CycleInput → ProcState × List CycleTrace
  | ProcState.halted, _ => (ProcState.halted, [])
  | ProcState.running s, inputs =>
    let (sf, trs) := runCycles showDebugInfo s inputs
    (ProcState.running sf, trs)

/-! ### Concrete cycle inputs used by witnesses and counterexamples -/

/-- A benign cycle: plausible sensor reads (22.5 C, 41 %, 101500 Pa), the
battery values of the spec's scenario A, and a successful send. -/
def okInput : CycleInput :=
  { timeMillis := 1000
    qmpOk := true
    qmpPressure := 101500
    shtOk := true
    shtTemp := 45 / 2
    shtHum := 41
    batVolt := 3850
    batCurrent := -120
    batLevel := 76
    sendResult := 0
    wifiConnected := true }

/-- Same cycle but the send fails with a non-zero result code. -/
def failSendInput : CycleInput :=
  { okInput with sendResult := 3 }

/-- Same cycle but the pressure sensor reads 90000 (i.e. 900 hPa). -/
def pressure90000Input : CycleInput :=
  { okInput with qmpPressure := 90000 }

/-- Same cycle but the pressure sensor reads 900 raw units (9 hPa). -/
def pressure900Input : CycleInput :=
  { okInput with qmpPressure := 900 }

/-- Same cycle but the pressure read fails. -/
def qmpFailInput : CycleInput :=
  { okInput with qmpOk := false }

/-- Same cycle but the humidity/temperature read fails. -/
def shtFailInput : CycleInput :=
  { okInput with shtOk := false }

/-- Same cycle but both sensor reads fail. -/
def bothFailInput : CycleInput :=
  { okInput with qmpOk := false, shtOk := false }

/-- A device state mid-run: plausible retained readings, empty buffers. -/
def steadyState : DeviceState :=
  { initialState with temp := 21, hum := 40, pressure := 101300 }

/-- A startup where `transport.begin()` fails. -/
def failedSetup : SetupInput :=
  { qmpBeginOk := true, shtBeginOk := true,
    transportBeginOk := false, clientBeginOk := true }

/-- The metric names in registration order (`setup` lines 109-114). -/
def registeredNames : List String :=
  ["m5stick_temp", "m5stick_hum", "m5stick_pressure",
   "m5stick_bat_volt", "m5stick_bat_current", "m5stick_bat_level"]

/-! ### Projection helper lemmas -/

@[simp] theorem addSample_name (ts : TimeSeries) (t : Int) (v : Rat) :
    (ts.addSample t v).name = ts.name := rfl

@[simp] theorem addSample_samples (ts : TimeSeries) (t : Int) (v : Rat) :
    (ts.addSample t v).samples = ts.samples ++ [⟨t, v⟩] := rfl

@[simp] theorem resetSamples_name (ts : TimeSeries) :
    (ts.resetSamples).name = ts.name := rfl

@[simp] theorem resetSamples_samples (ts : TimeSeries) :
    (ts.resetSamples).samples = [] := rfl

@[simp] theorem updateFailCount_temp (d : Bool) (r : Int) (s : DeviceState) :
    (updateFailCount d r s).temp = s.temp := by
  unfold updateFailCount
  split_ifs <;> rfl

@[simp] theorem updateFailCount_hum (d : Bool) (r : Int) (s : DeviceState) :
    (updateFailCount d r s).hum = s.hum := by
  unfold updateFailCount
  split_ifs <;> rfl

@[simp] theorem updateFailCount_pressure (d : Bool) (r : Int) (s : DeviceState) :
    (updateFailCount d r s).pressure = s.pressure := by
  unfold updateFailCount
  split_ifs <;> rfl

@[simp] theorem updateFailCount_req (d : Bool) (r : Int) (s : DeviceState) :
    (updateFailCount d r s).req = s.req := by
  unfold updateFailCount
  split_ifs <;> rfl

@[simp] theorem updateFailCount_ts_temperature (d : Bool) (r : Int) (s : DeviceState) :
    (updateFailCount d r s).ts_m5stick_temperature = s.ts_m5stick_temperature := by
  unfold updateFailCount
  split_ifs <;> rfl

@[simp] theorem updateFailCount_ts_humidity (d : Bool) (r : Int) (s : DeviceState) :
    (updateFailCount d r s).ts_m5stick_humidity = s.ts_m5stick_humidity := by
  unfold updateFailCount
  split_ifs <;> rfl

@[simp] theorem updateFailCount_ts_pressure (d : Bool) (r : Int) (s : DeviceState) :
    (updateFailCount d r s).ts_m5stick_pressure = s.ts_m5stick_pressure := by
  unfold updateFailCount
  split_ifs <;> rfl

@[simp] theorem updateFailCount_ts_bat_volt (d : Bool) (r : Int) (s : DeviceState) :
    (updateFailCount d r s).ts_m5stick_bat_volt = s.ts_m5stick_bat_volt := by
  unfold updateFailCount
  split_ifs <;> rfl

@[simp] theorem updateFailCount_ts_bat_current (d : Bool) (r : Int) (s : DeviceState) :
    (updateFailCount d r s).ts_m5stick_bat_current = s.ts_m5stick_bat_current := by
  unfold updateFailCount
  split_ifs <;> rfl

@[simp] theorem updateFailCount_ts_bat_level (d : Bool) (r : Int) (s : DeviceState) :
    (updateFailCount d r s).ts_m5stick_bat_level = s.ts_m5stick_bat_level := by
  unfold updateFailCount
  split_ifs <;> rfl

theorem updateFailCount_count (d : Bool) (r : Int) (s : DeviceState) :
    (updateFailCount d r s).upload_fail_count =
      if d then (if r = 0 then 0 else s.upload_fail_count + 1)
      else s.upload_fail_count := by
  unfold updateFailCount
  split_ifs <;> rfl

theorem appendAll_req (s : DeviceState) (t : Int) (i : CycleInput) :
    (appendAll s t i).req =
      [s.ts_m5stick_temperature.addSample t s.temp,
       s.ts_m5stick_humidity.addSample t s.hum,
       s.ts_m5stick_pressure.addSample t s.pressure,
       s.ts_m5stick_bat_volt.addSample t (i.batVolt : Rat),
       s.ts_m5stick_bat_current.addSample t (i.batCurrent : Rat),
       s.ts_m5stick_bat_level.addSample t (i.batLevel : Rat)] := rfl

theorem resetAll_req (s : DeviceState) :
    (resetAll s).req =
      [s.ts_m5stick_temperature.resetSamples,
       s.ts_m5stick_humidity.resetSamples,
       s.ts_m5stick_pressure.resetSamples,
       s.ts_m5stick_bat_volt.resetSamples,
       s.ts_m5stick_bat_current.resetSamples,
       s.ts_m5stick_bat_level.resetSamples] := rfl

@[simp] theorem appendAll_count (s : DeviceState) (t : Int) (i : CycleInput) :
    (appendAll s t i).upload_fail_count = s.upload_fail_count := rfl

@[simp] theorem resetAll_count (s : DeviceState) :
    (resetAll s).upload_fail_count = s.upload_fail_count := rfl

@[simp] theorem readSensors_count (s : DeviceState) (i : CycleInput) :
    (readSensors s i).upload_fail_count = s.upload_fail_count := rfl

/-! ### Case characterizations of one `loop()` iteration -/

theorem loopStep_eq_of_restart (d : Bool) (s : DeviceState) (i : CycleInput)
    (h : (readSensors s i).pressure < 950 ∨ (readSensors s i).pressure / 100 > 1200) :
    loopStep d s i = (readSensors s i, ⟨true, false, none, false⟩) := by
  rcases h with h | h
  · simp [loopStep, h]
  · by_cases h1 : (readSensors s i).pressure < 950 <;> simp [loopStep, h1, h]

theorem loopStep_eq_of_no_restart (d : Bool) (s : DeviceState) (i : CycleInput)
    (h1 : ¬ (readSensors s i).pressure < 950)
    (h2 : ¬ (readSensors s i).pressure / 100 > 1200) :
    loopStep d s i =
      (updateFailCount d i.sendResult
        (resetAll (appendAll (readSensors s i) i.timeMillis i)),
       ⟨false, true, some ((appendAll (readSensors s i) i.timeMillis i).req), d⟩) := by
  simp [loopStep, h1, h2]

theorem checkPressureRestart_eq_false_iff (p : Rat) :
    checkPressureRestart p = false ↔ (¬ p < 950 ∧ ¬ p / 100 > 1200) := by
  simp [checkPressureRestart]

/-! ### C1: the anomaly-check bounds -/

/-- C1, counterexample: at the reading p = 90000 the claimed predicate
(p/100 < 950, as `specCheckPressureRestart` words it) demands a restart,
yet the code's check (line 132 compares the RAW value against 950) does
not signal one. -/
theorem checkPressure_spec_mismatch_at_90000 :
    specCheckPressureRestart 90000 = true ∧ checkPressureRestart 90000 = false := by
  constructor <;> norm_num [specCheckPressureRestart, checkPressureRestart]

/-- C1 (amended): the anomaly check signals a restart iff p < 950 in raw
source units (line 132 does not divide by 100) or p/100 > 1200; the
boundary values p = 950 and p = 120000 (p/100 = 1200) are both ok, and a
loop iteration restarts exactly when the check holds on the (possibly
retained) pressure value. -/
theorem checkPressureRestart_characterization :
    (∀ p : Rat, checkPressureRestart p = true ↔ (p < 950 ∨ p / 100 > 1200)) ∧
    checkPressureRestart 950 = false ∧
    checkPressureRestart 120000 = false ∧
    (∀ (d : Bool) (s : DeviceState) (i : CycleInput),
      (loopStep d s i).2.restarted = checkPressureRestart (readSensors s i).pressure) := by
  refine ⟨?_, ?_, ?_, ?_⟩
  · intro p; simp [checkPressureRestart]
  · norm_num [checkPressureRestart]
  · norm_num [checkPressureRestart]
  · intro d s i
    by_cases h1 : (readSensors s i).pressure < 950
    · rw [loopStep_eq_of_restart d s i (Or.inl h1)]
      simp [checkPressureRestart, h1]
    · by_cases h2 : (readSensors s i).pressure / 100 > 1200
      · rw [loopStep_eq_of_restart d s i (Or.inr h2)]
        simp [checkPressureRestart, h2]
      · rw [loopStep_eq_of_no_restart d s i h1 h2]
        simp [checkPressureRestart, h1, h2]

theorem checkPressureRestart_characterization_witness :
    checkPressureRestart 500 = true :=
  (checkPressureRestart_characterization.1 500).mpr (Or.inl (by norm_num))

/-! ### C2: the 900 hPa scenario -/

/-- C2, counterexample: a full cycle whose pressure reading is 90000
source units (i.e. 900 hPa) does NOT restart: the send is attempted and,
with the debug flag on, the status is rendered — contrary to the claim. -/
theorem pressure_90000_cycle_not_restarted :
    (loopStep true steadyState pressure90000Input).2.restarted = false ∧
    (loopStep true steadyState pressure90000Input).2.sendAttempted = true ∧
    (loopStep true steadyState pressure90000Input).2.statusRendered = true := by
  norm_num [loopStep, readSensors, steadyState, initialState, pressure90000Input, okInput]

/-- C2 (amended): for a cycle whose pressure reading is 900 in source
units (9 hPa) the restart capability is invoked, no send is attempted
and no status is rendered for that cycle. -/
theorem pressure_900_cycle_restarts :
    ∀ (d : Bool) (s : DeviceState) (i : CycleInput),
      i.qmpOk = true → i.qmpPressure = 900 →
      (loopStep d s i).2.restarted = true ∧
      (loopStep d s i).2.sendAttempted = false ∧
      (loopStep d s i).2.statusRendered = false := by
  intro d s i hq hp
  have h : (readSensors s i).pressure < 950 := by
    simp [readSensors, hq, hp]
    norm_num
  rw [loopStep_eq_of_restart d s i (Or.inl h)]
  exact ⟨rfl, rfl, rfl⟩

theorem pressure_900_cycle_restarts_witness :
    (loopStep true steadyState pressure900Input).2.restarted = true ∧
    (loopStep true steadyState pressure900Input).2.sendAttempted = false ∧
    (loopStep true steadyState pressure900Input).2.statusRendered = false :=
  pressure_900_cycle_restarts true steadyState pressure900Input rfl rfl

/-! ### C3: the upload failure counter -/

theorem loopStep_count_of_no_restart (d : Bool) (s : DeviceState) (i : CycleInput)
    (h1 : ¬ (readSensors s i).pressure < 950)
    (h2 : ¬ (readSensors s i).pressure / 100 > 1200) :
    (loopStep d s i).1.upload_fail_count =
      if d then (if i.sendResult = 0 then 0 else s.upload_fail_count + 1)
      else s.upload_fail_count := by
  rw [loopStep_eq_of_no_restart d s i h1 h2]
  simp [updateFailCount_count]

theorem runCycles_all_fail_count (s : DeviceState) (inputs : List CycleInput)
    (h : ∀ i ∈ inputs,
      i.qmpOk = true ∧ checkPressureRestart i.qmpPressure = false ∧ i.sendResult ≠ 0) :
    (runCycles true s inputs).1.upload_fail_count =
      s.upload_fail_count + inputs.length := by
  induction inputs generalizing s with
  | nil => simp [runCycles]
  | cons i rest ih =>
    obtain ⟨hq, hcp, hr⟩ := h i (List.mem_cons_self i rest)
    obtain ⟨hp1, hp2⟩ := (checkPressureRestart_eq_false_iff i.qmpPressure).mp hcp
    have h1 : ¬ (readSensors s i).pressure < 950 := by
      simpa [readSensors, hq] using hp1
    have h2 : ¬ (readSensors s i).pressure / 100 > 1200 := by
      simpa [readSensors, hq] using hp2
    have hrest : ∀ j ∈ rest,
        j.qmpOk = true ∧ checkPressureRestart j.qmpPressure = false ∧ j.sendResult ≠ 0 :=
      fun j hj => h j (List.mem_cons_of_mem i hj)
    simp only [runCycles]
    rw [ih (loopStep true s i).1 hrest,
      loopStep_count_of_no_restart true s i h1 h2]
    simp only [hr, if_true, if_false, if_neg hr, List.length_cons]
    push_cast
    ring

/-- C3, counterexample: with the debug display disabled the failure
counter never moves — a failed send leaves it at 0 instead of
incrementing it to 1, because lines 192-199 sit inside the
`LCD_SHOW_DEBUG_INFO` guard. -/
theorem failed_send_without_debug_flag_keeps_counter :
    (loopStep false initialState failSendInput).2.sendAttempted = true ∧
    failSendInput.sendResult ≠ 0 ∧
    (loopStep false initialState failSendInput).1.upload_fail_count = 0 := by
  norm_num [loopStep, readSensors, appendAll, resetAll, updateFailCount,
    initialState, failSendInput, okInput]

/-- C3 (amended): when the debug display is enabled, the counter is 0
after any successful completed cycle and equals N after N consecutive
failed sends starting from a zero counter; when the debug display is
disabled the counter is never updated at all. -/
theorem upload_fail_count_invariant :
    (∀ (s : DeviceState) (i : CycleInput),
      i.qmpOk = true → checkPressureRestart i.qmpPressure = false → i.sendResult = 0 →
      (loopStep true s i).1.upload_fail_count = 0) ∧
    (∀ (s : DeviceState) (inputs : List CycleInput),
      s.upload_fail_count = 0 →
      (∀ i ∈ inputs,
        i.qmpOk = true ∧ checkPressureRestart i.qmpPressure = false ∧ i.sendResult ≠ 0) →
      (runCycles true s inputs).1.upload_fail_count = inputs.length) ∧
    (∀ (s : DeviceState) (i : CycleInput),
      (loopStep false s i).1.upload_fail_count = s.upload_fail_count) := by
  refine ⟨?_, ?_, ?_⟩
  · intro s i hq hcp hres
    obtain ⟨hp1, hp2⟩ := (checkPressureRestart_eq_false_iff i.qmpPressure).mp hcp
    have h1 : ¬ (readSensors s i).pressure < 950 := by
      simpa [readSensors, hq] using hp1
    have h2 : ¬ (readSensors s i).pressure / 100 > 1200 := by
      simpa [readSensors, hq] using hp2
    rw [loopStep_count_of_no_restart true s i h1 h2]
    simp [hres]
  · intro s inputs h0 h
    rw [runCycles_all_fail_count s inputs h, h0]
    simp
  · intro s i
    by_cases h1 : (readSensors s i).pressure < 950
    · rw [loopStep_eq_of_restart false s i (Or.inl h1)]
      simp
    · by_cases h2 : (readSensors s i).pressure / 100 > 1200
      · rw [loopStep_eq_of_restart false s i (Or.inr h2)]
        simp
      · rw [loopStep_count_of_no_restart false s i h1 h2]
        simp

theorem upload_fail_count_invariant_witness :
    (loopStep true initialState okInput).1.upload_fail_count = 0 ∧
    (runCycles true initialState
      [failSendInput, failSendInput, failSendInput]).1.upload_fail_count = 3 ∧
    (loopStep false steadyState failSendInput).1.upload_fail_count =
      steadyState.upload_fail_count := by
  refine ⟨?_, ?_, ?_⟩
  · exact upload_fail_count_invariant.1 initialState okInput rfl
      (by norm_num [checkPressureRestart, okInput]) rfl
  · exact upload_fail_count_invariant.2.1 initialState
      [failSendInput, failSendInput, failSendInput] rfl
      (by
        intro i hi
        fin_cases hi <;>
          exact ⟨rfl, by norm_num [checkPressureRestart, failSendInput, okInput],
            by norm_num [failSendInput, okInput]⟩)
  · exact upload_fail_count_invariant.2.2 steadyState failSendInput

/-! ### C4: what the debug flag gates -/

/-- C4, counterexample: the same failed-send cycle run from the same
state with the flag on and off: the failure counter (non-display state)
ends at 1 versus 0, so the flag does not gate only the display. -/
theorem upload_fail_count_depends_on_debug_flag :
    (loopStep true steadyState failSendInput).1.upload_fail_count = 1 ∧
    (loopStep false steadyState failSendInput).1.upload_fail_count = 0 := by
  norm_num [loopStep, readSensors, appendAll, resetAll, updateFailCount,
    steadyState, initialState, failSendInput, okInput]

/-- C4 (amended): the debug flag gates the status display AND the
failure-counter update; everything else is insensitive to it: running one
cycle with the flag on and off from the same state yields the same sensor
state, the same six series, the same restart/send behaviour and the same
sent batch — only `upload_fail_count` (and the status render) may
differ. -/
theorem debug_flag_noninterference :
    ∀ (s : DeviceState) (i : CycleInput),
      (loopStep true s i).1.temp = (loopStep false s i).1.temp ∧
      (loopStep true s i).1.hum = (loopStep false s i).1.hum ∧
      (loopStep true s i).1.pressure = (loopStep false s i).1.pressure ∧
      (loopStep true s i).1.req = (loopStep false s i).1.req ∧
      (loopStep true s i).2.restarted = (loopStep false s i).2.restarted ∧
      (loopStep true s i).2.sendAttempted = (loopStep false s i).2.sendAttempted ∧
      (loopStep true s i).2.sentBatch = (loopStep false s i).2.sentBatch := by
  intro s i
  by_cases h1 : (readSensors s i).pressure < 950
  · rw [loopStep_eq_of_restart true s i (Or.inl h1),
      loopStep_eq_of_restart false s i (Or.inl h1)]
    exact ⟨rfl, rfl, rfl, rfl, rfl, rfl, rfl⟩
  · by_cases h2 : (readSensors s i).pressure / 100 > 1200
    · rw [loopStep_eq_of_restart true s i (Or.inr h2),
        loopStep_eq_of_restart false s i (Or.inr h2)]
      exact ⟨rfl, rfl, rfl, rfl, rfl, rfl, rfl⟩
    · rw [loopStep_eq_of_no_restart true s i h1 h2,
        loopStep_eq_of_no_restart false s i h1 h2]
      refine ⟨?_, ?_, ?_, ?_, rfl, rfl, rfl⟩ <;> simp

/-! ### C5: unconditional buffer clearing -/

/-- C5: in every cycle that reaches the send step, all six series are
cleared immediately after the send attempt regardless of the result
code: at the end of such a cycle every series has zero samples while the
series names and their count are unchanged. -/
theorem buffers_cleared_after_any_send :
    ∀ (d : Bool) (s : DeviceState) (i : CycleInput),
      (loopStep d s i).2.sendAttempted = true →
      (loopStep d s i).1.req.map TimeSeries.samples = [[], [], [], [], [], []] ∧
      (loopStep d s i).1.req.map TimeSeries.name = s.req.map TimeSeries.name ∧
      (loopStep d s i).1.req.length = s.req.length := by
  intro d s i hsend
  by_cases h1 : (readSensors s i).pressure < 950
  · rw [loopStep_eq_of_restart d s i (Or.inl h1)] at hsend
    simp at hsend
  · by_cases h2 : (readSensors s i).pressure / 100 > 1200
    · rw [loopStep_eq_of_restart d s i (Or.inr h2)] at hsend
      simp at hsend
    · rw [loopStep_eq_of_no_restart d s i h1 h2]
      refine ⟨?_, ?_, ?_⟩ <;>
        simp [resetAll, appendAll, readSensors, DeviceState.req]

theorem buffers_cleared_after_any_send_witness :
    (loopStep true steadyState failSendInput).1.req.map TimeSeries.samples =
      [[], [], [], [], [], []] ∧
    (loopStep true steadyState failSendInput).1.req.map TimeSeries.name =
      steadyState.req.map TimeSeries.name ∧
    (loopStep true steadyState failSendInput).1.req.length =
      steadyState.req.length :=
  buffers_cleared_after_any_send true steadyState failSendInput
    (by norm_num [loopStep, readSensors, steadyState, initialState,
      failSendInput, okInput])

/-! ### C6: zero-fill on a failed humidity/temperature read -/

/-- C6: in every non-restarting cycle whose humidity/temperature read
fails, the samples appended for temperature and humidity are exactly 0,
while the pressure sample carries the fresh reading when the pressure
read succeeded and the retained previous value when it failed. -/
theorem sht_failure_zero_fill :
    ∀ (d : Bool) (s : DeviceState) (i : CycleInput),
      i.shtOk = false →
      (loopStep d s i).2.restarted = false →
      (loopStep d s i).2.sentBatch = some
        [s.ts_m5stick_temperature.addSample i.timeMillis 0,
         s.ts_m5stick_humidity.addSample i.timeMillis 0,
         s.ts_m5stick_pressure.addSample i.timeMillis
           (if i.qmpOk then i.qmpPressure else s.pressure),
         s.ts_m5stick_bat_volt.addSample i.timeMillis (i.batVolt : Rat),
         s.ts_m5stick_bat_current.addSample i.timeMillis (i.batCurrent : Rat),
         s.ts_m5stick_bat_level.addSample i.timeMillis (i.batLevel : Rat)] := by
  intro d s i hsht hnor
  by_cases h1 : (readSensors s i).pressure < 950
  · rw [loopStep_eq_of_restart d s i (Or.inl h1)] at hnor
    simp at hnor
  · by_cases h2 : (readSensors s i).pressure / 100 > 1200
    · rw [loopStep_eq_of_restart d s i (Or.inr h2)] at hnor
      simp at hnor
    · rw [loopStep_eq_of_no_restart d s i h1 h2]
      simp [appendAll, readSensors, hsht, DeviceState.req]

theorem sht_failure_zero_fill_witness :
    (loopStep true steadyState bothFailInput).2.sentBatch = some
      [steadyState.ts_m5stick_temperature.addSample bothFailInput.timeMillis 0,
       steadyState.ts_m5stick_humidity.addSample bothFailInput.timeMillis 0,
       steadyState.ts_m5stick_pressure.addSample bothFailInput.timeMillis
         (if bothFailInput.qmpOk then bothFailInput.qmpPressure else steadyState.pressure),
       steadyState.ts_m5stick_bat_volt.addSample bothFailInput.timeMillis
         (bothFailInput.batVolt : Rat),
       steadyState.ts_m5stick_bat_current.addSample bothFailInput.timeMillis
         (bothFailInput.batCurrent : Rat),
       steadyState.ts_m5stick_bat_level.addSample bothFailInput.timeMillis
         (bothFailInput.batLevel : Rat)] :=
  sht_failure_zero_fill true steadyState bothFailInput rfl
    (by norm_num [loopStep, readSensors, steadyState, initialState,
      bothFailInput, okInput])

/-! ### C7: one sample per series, one shared timestamp -/

/-- C7: every non-restarting cycle appends exactly one sample to each of
the six registered series, and all six appended samples carry the single
timestamp captured at the start of the cycle. -/
theorem one_sample_per_series_shared_timestamp :
    ∀ (d : Bool) (s : DeviceState) (i : CycleInput),
      (loopStep d s i).2.restarted = false →
      ∃ vt vh vp vv vc vl : Rat,
        (loopStep d s i).2.sentBatch = some
          [s.ts_m5stick_temperature.addSample i.timeMillis vt,
           s.ts_m5stick_humidity.addSample i.timeMillis vh,
           s.ts_m5stick_pressure.addSample i.timeMillis vp,
           s.ts_m5stick_bat_volt.addSample i.timeMillis vv,
           s.ts_m5stick_bat_current.addSample i.timeMillis vc,
           s.ts_m5stick_bat_level.addSample i.timeMillis vl] := by
  intro d s i hnor
  by_cases h1 : (readSensors s i).pressure < 950
  · rw [loopStep_eq_of_restart d s i (Or.inl h1)] at hnor
    simp at hnor
  · by_cases h2 : (readSensors s i).pressure / 100 > 1200
    · rw [loopStep_eq_of_restart d s i (Or.inr h2)] at hnor
      simp at hnor
    · rw [loopStep_eq_of_no_restart d s i h1 h2]
      refine ⟨(readSensors s i).temp, (readSensors s i).hum,
        (readSensors s i).pressure, (i.batVolt : Rat), (i.batCurrent : Rat),
        (i.batLevel : Rat), ?_⟩
      simp [appendAll_req, readSensors]

theorem one_sample_per_series_shared_timestamp_witness :
    (loopStep true steadyState okInput).2.sentBatch.isSome = true := by
  obtain ⟨vt, vh, vp, vv, vc, vl, h⟩ :=
    one_sample_per_series_shared_timestamp true steadyState okInput
      (by norm_num [loopStep, readSensors, steadyState, initialState, okInput])
  rw [h]
  rfl

/-! ### C8: startup failure halts forever -/

/-- C8: if the initial transport connection (`transport.begin`) or the
metrics-client initialization (`client.begin`) fails, the process ends up
halted and a halted process executes no cycle at all, for any number of
scheduler ticks: it never retries, never restarts and never enters the
loop. -/
theorem startup_failure_halts_forever :
    ∀ si : SetupInput,
      (si.transportBeginOk = false ∨ si.clientBeginOk = false) →
      startProc si = ProcState.halted ∧
      (∀ (d : Bool) (inputs : List CycleInput),
        procRun d (startProc si) inputs = (ProcState.halted, [])) := by
  intro si h
  have hh : startProc si = ProcState.halted := by
    rcases h with h | h <;> simp [startProc, h]
  refine ⟨hh, fun d inputs => ?_⟩
  rw [hh]
  rfl

theorem startup_failure_halts_forever_witness :
    startProc failedSetup = ProcState.halted ∧
    procRun true (startProc failedSetup) [okInput, failSendInput] =
      (ProcState.halted, []) := by
  have h := startup_failure_halts_forever failedSetup (Or.inl rfl)
  exact ⟨h.1, h.2 true [okInput, failSendInput]⟩

/-! ### C9: the series set is fixed and ordered -/

/-- C9: a successful startup registers exactly the six series, in
registration order temperature, humidity, pressure, battery voltage,
battery current, battery level; a cycle never adds or removes a series,
and the batch handed to the send visits them in that same order. -/
theorem series_set_fixed_and_ordered :
    (∀ (si : SetupInput) (s : DeviceState),
      startProc si = ProcState.running s →
      s.req.map TimeSeries.name = registeredNames) ∧
    (∀ (d : Bool) (s : DeviceState) (i : CycleInput),
      (loopStep d s i).1.req.map TimeSeries.name = s.req.map TimeSeries.name ∧
      (loopStep d s i).1.req.length = s.req.length) ∧
    (∀ (d : Bool) (s : DeviceState) (i : CycleInput) (b : List TimeSeries),
      (loopStep d s i).2.sentBatch = some b →
      b.map TimeSeries.name = s.req.map TimeSeries.name) := by
  refine ⟨?_, ?_, ?_⟩
  · intro si s h
    unfold startProc at h
    split_ifs at h
    cases h
    rfl
  · intro d s i
    by_cases h1 : (readSensors s i).pressure < 950
    · rw [loopStep_eq_of_restart d s i (Or.inl h1)]
      exact ⟨by simp [readSensors, DeviceState.req], rfl⟩
    · by_cases h2 : (readSensors s i).pressure / 100 > 1200
      · rw [loopStep_eq_of_restart d s i (Or.inr h2)]
        exact ⟨by simp [readSensors, DeviceState.req], rfl⟩
      · rw [loopStep_eq_of_no_restart d s i h1 h2]
        exact ⟨by simp [resetAll, appendAll, readSensors, DeviceState.req], rfl⟩
  · intro d s i b hb
    by_cases h1 : (readSensors s i).pressure < 950
    · rw [loopStep_eq_of_restart d s i (Or.inl h1)] at hb
      simp at hb
    · by_cases h2 : (readSensors s i).pressure / 100 > 1200
      · rw [loopStep_eq_of_restart d s i (Or.inr h2)] at hb
        simp at hb
      · rw [loopStep_eq_of_no_restart d s i h1 h2] at hb
        simp only [Option.some.injEq] at hb
        subst hb
        simp [appendAll, readSensors, DeviceState.req]

theorem series_set_fixed_and_ordered_witness :
    initialState.req.map TimeSeries.name = registeredNames ∧
    (loopStep true steadyState okInput).1.req.map TimeSeries.name =
      steadyState.req.map TimeSeries.name := by
  refine ⟨?_, ?_⟩
  · exact series_set_fixed_and_ordered.1
      ⟨true, true, true, true⟩ initialState rfl
  · exact (series_set_fixed_and_ordered.2.1 true steadyState okInput).1

/-! ### C10: the anomaly check runs on the retained pressure value -/

/-- C10: the pressure state starts at 0, is left in place by a failed
pressure read and overwritten by a successful one; consequently any
cycle whose pressure read fails while the retained value is below the
lower bound — in particular the very first cycle after startup —
invokes the restart capability and attempts no send. -/
theorem retained_pressure_anomaly_check :
    initialState.pressure = 0 ∧
    (∀ (d : Bool) (s : DeviceState) (i : CycleInput),
      i.qmpOk = false → (loopStep d s i).1.pressure = s.pressure) ∧
    (∀ (d : Bool) (s : DeviceState) (i : CycleInput),
      i.qmpOk = true → (loopStep d s i).1.pressure = i.qmpPressure) ∧
    (∀ (d : Bool) (s : DeviceState) (i : CycleInput),
      i.qmpOk = false → s.pressure < 950 →
      (loopStep d s i).2.restarted = true ∧
      (loopStep d s i).2.sendAttempted = false) := by
  refine ⟨rfl, ?_, ?_, ?_⟩
  · intro d s i hq
    by_cases h1 : (readSensors s i).pressure < 950
    · rw [loopStep_eq_of_restart d s i (Or.inl h1)]
      simp [readSensors, hq]
    · by_cases h2 : (readSensors s i).pressure / 100 > 1200
      · rw [loopStep_eq_of_restart d s i (Or.inr h2)]
        simp [readSensors, hq]
      · rw [loopStep_eq_of_no_restart d s i h1 h2]
        simp [resetAll, appendAll, readSensors, hq]
  · intro d s i hq
    by_cases h1 : (readSensors s i).pressure < 950
    · rw [loopStep_eq_of_restart d s i (Or.inl h1)]
      simp [readSensors, hq]
    · by_cases h2 : (readSensors s i).pressure / 100 > 1200
      · rw [loopStep_eq_of_restart d s i (Or.inr h2)]
        simp [readSensors, hq]
      · rw [loopStep_eq_of_no_restart d s i h1 h2]
        simp [resetAll, appendAll, readSensors, hq]
  · intro d s i hq hp
    have h : (readSensors s i).pressure < 950 := by
      simpa [readSensors, hq] using hp
    rw [loopStep_eq_of_restart d s i (Or.inl h)]
    exact ⟨rfl, rfl⟩

theorem retained_pressure_anomaly_check_witness :
    (loopStep true steadyState qmpFailInput).1.pressure = steadyState.pressure ∧
    (loopStep true steadyState okInput).1.pressure = okInput.qmpPressure ∧
    (loopStep true initialState qmpFailInput).2.restarted = true ∧
    (loopStep true initialState qmpFailInput).2.sendAttempted = false := by
  have hfirst := retained_pressure_anomaly_check.2.2.2 true initialState qmpFailInput
    rfl (by norm_num [initialState])
  exact ⟨retained_pressure_anomaly_check.2.1 true steadyState qmpFailInput rfl,
    retained_pressure_anomaly_check.2.2.1 true steadyState okInput rfl,
    hfirst.1, hfirst.2⟩

end M5Stick
